import Mathlib

/-
Verification of the qpyodide cell execution engine
(`_extensions/coatless-quarto/pyodide/qpyodide-cell-classes.js`).

The JavaScript is embedded shallowly: DOM regions become explicit record
fields, the interpreter and the network are oracles supplied to each
operation, and every event handler becomes a function from the pre-state
to the observable post-state.  JavaScript exceptions are modelled by an
explicit `thrown` field: mutations performed before an uncaught exception
persist, so each operation returns the state reached so far together with
the escaped error, if any.
-/

namespace QPyodide

/-- Kind of a captured stream record: standard output or standard error. -/
inductive StreamKind
  | stdout
  | stderr
deriving DecidableEq, Repr

/-- One ordered record of the Output Capture Buffer. -/
structure OutputRecord where
  text : String
  kind : StreamKind
deriving DecidableEq, Repr

/-- Modelled from the spec: `qpyodideResetOutputArray` lives in the engine
bootstrap file that is not under `src/`; per the spec it empties the
Output Capture Buffer for the coming run. -/
def qpyodideResetOutputArray : List OutputRecord := []

/-- Modelled from the spec: `qpyodideAddToOutputArray` lives in the engine
bootstrap file that is not under `src/`; per the spec it appends one
record to the buffer, keeping emission order. -/
def qpyodideAddToOutputArray (arr : List OutputRecord) (text : String)
    (kind : StreamKind) : List OutputRecord :=
  arr ++ [{ text := text, kind := kind }]

/-- Modelled from the spec: `qpyodideRetrieveOutput` lives in the engine
bootstrap file that is not under `src/`; per the spec it drains the buffer
into one formatted block, records in emission order. -/
def qpyodideRetrieveOutput (arr : List OutputRecord) : String :=
  String.intercalate "\n" (arr.map (fun r => r.text))

/-- A rendered child node of an output, graphic or feedback region. -/
inductive Node
  | pre (content : Option String) (hidden : Bool)
  | figure (drawn : Nat) (caption : Option String)
  | feedbackHeader
  | feedbackText (html : String)
deriving DecidableEq, Repr

/-- One region div: its rendered children and its `has-content` class
mark (`classList.contains("has-content")`). -/
structure Region where
  children : List Node
  hasContent : Bool
deriving DecidableEq, Repr

/-- The cell options the engine consults: `read-only` is string-valued and
compared against the strings "true"/"false" in the source; `fig-cap` is
absent or a string. -/
structure CellOptions where
  readOnly : String
  figCap : Option String
deriving DecidableEq, Repr

/-- JavaScript truthiness of an optional string value: absent
(`undefined`) and the empty string are falsy. -/
def jsTruthy : Option String → Bool
  | none => false
  | some s => s != ""

/-- The mutable state of one Interactive run target.

`executionLock` is `this.executionLock`: assigned `false` by the `BaseCell`
constructor and toggled by `disableInteractiveCells` /
`enableInteractiveCells`.

`executeLock` is `this.executeLock`: the property read by the guard at the
top of `runCode` / `runCodeNE` and of the feedback handler.  No statement
in the source ever assigns it, so on the JavaScript object it is
`undefined` (falsy); the field records it explicitly so the guard can be
embedded exactly as written. -/
structure CellState where
  editorValue : String
  initialCode : String
  executionLock : Bool
  executeLock : Bool
  outputCode : Region
  outputGraph : Region
  outputFeedback : Option Region
  options : CellOptions
deriving DecidableEq, Repr

/-- Page-level state shared across cells: the disabled state of every
`.qpyodide-button-run` button, the Output Capture Buffer, and the alerts
shown to the user so far. -/
structure PageState where
  runButtonsDisabled : Bool
  outputArray : List OutputRecord
  alerts : List String
deriving DecidableEq, Repr

/-- `InteractiveCell.setupElement` + `setupMonacoEditor`: the state of a
freshly constructed cell.  The output area starts with one hidden `pre`;
the feedback area div is created only when the global feedback flag is
true and is attached to the document (hence found by `getElementById`)
only when additionally `read-only` is the string "false"; otherwise
`this.outputFeedbackDiv` is `null`. -/
def setupCell (feedbackFlag : Bool) (code : String) (opts : CellOptions) :
    CellState :=
  { editorValue := code
    initialCode := code
    executionLock := false
    executeLock := false
    outputCode := { children := [Node.pre none true], hasContent := false }
    outputGraph := { children := [], hasContent := false }
    outputFeedback :=
      if feedbackFlag && opts.readOnly == "false" then
        some { children := [], hasContent := false }
      else none
    options := opts }

/-- `disableInteractiveCells`: set the cell's `executionLock` and disable
every run button on the page. -/
def disableInteractiveCells (c : CellState) (p : PageState) :
    CellState × PageState :=
  ({ c with executionLock := true }, { p with runButtonsDisabled := true })

/-- `enableInteractiveCells`: clear the cell's `executionLock` and
re-enable every run button on the page. -/
def enableInteractiveCells (c : CellState) (p : PageState) :
    CellState × PageState :=
  ({ c with executionLock := false }, { p with runButtonsDisabled := false })

/-- The external interpreter as one run consumes it: the readiness promise
(`await mainPyodide`), dependency loading (`loadPackagesFromImports`), the
asynchronous run (`runPythonAsync`) returning a value or raising, the
records the stdout/stderr sinks emit while the source runs, and the number
of drawable elements the run appends to the fresh figure sink. -/
structure Interp where
  ready : Except String Unit
  loadPackages : String → Except String Unit
  runPy : String → Except String String
  emitted : String → List OutputRecord
  drawn : String → Nat

/-- The `try { loadPackagesFromImports(code); runPythonAsync(code) } catch`
block shared by `runCode`, `runCodeNE` and the feedback re-run: it yields
the records accumulated in the buffer, the number of drawables left in the
fresh figure sink, and whether `runPythonAsync` was reached.  A failure of
`loadPackagesFromImports` jumps to the same `catch` as an execution error,
so the source is then never run and no drawable is produced. -/
def tryRunBlock (i : Interp) (code : String) :
    List OutputRecord × Nat × Bool :=
  match i.loadPackages code with
  | Except.error e =>
      (qpyodideAddToOutputArray qpyodideResetOutputArray e StreamKind.stderr,
        0, false)
  | Except.ok _ =>
      match i.runPy code with
      | Except.ok v =>
          (qpyodideAddToOutputArray (i.emitted code) v StreamKind.stdout,
            i.drawn code, true)
      | Except.error e =>
          (qpyodideAddToOutputArray (i.emitted code) e StreamKind.stderr,
            i.drawn code, true)

/-- The test `/S/.test(result)` (with a backslash before the S in the
source): does the drained block contain any non-whitespace character. -/
def hasNonWhitespace (s : String) : Bool :=
  s.data.any (fun ch => !ch.isWhitespace)

/-- The observable result of one `runCode` / `runCodeNE` invocation. -/
structure RunResult where
  cell : CellState
  page : PageState
  thrown : Option String
  ran : Bool
  earlyReturn : Bool
deriving DecidableEq, Repr

/-- `InteractiveCell.runCode` (the primary target; `runCodeNE` is the same
code on the second target's regions).  The top guard reads `executeLock`;
the body is not wrapped in any try/finally, so a rejection of the
readiness promise escapes with the mutations made so far. -/
def runCode (i : Interp) (code : String) (c : CellState) (p : PageState) :
    RunResult :=
  if c.executeLock then
    { cell := c, page := p, thrown := none, ran := false, earlyReturn := true }
  else
    let c1 := (disableInteractiveCells c p).1
    let p1 := (disableInteractiveCells c p).2
    match i.ready with
    | Except.error e =>
        { cell := c1, page := p1, thrown := some e, ran := false
          earlyReturn := false }
    | Except.ok _ =>
        let arr := (tryRunBlock i code).1
        let drawnN := (tryRunBlock i code).2.1
        let ran := (tryRunBlock i code).2.2
        let result := qpyodideRetrieveOutput arr
        let oc : Region :=
          if hasNonWhitespace result then
            { children := [Node.pre (some result) false], hasContent := true }
          else
            { children := [Node.pre none true], hasContent := false }
        let og : Region :=
          if 0 < drawnN then
            { children := [Node.figure drawnN
                (if jsTruthy c1.options.figCap then c1.options.figCap
                 else none)]
              hasContent := true }
          else
            { children := [], hasContent := false }
        let c2 := { c1 with outputCode := oc, outputGraph := og }
        let p2 := { p1 with outputArray := arr }
        { cell := (enableInteractiveCells c2 p2).1
          page := (enableInteractiveCells c2 p2).2
          thrown := none, ran := ran, earlyReturn := false }

/-- Outcome of clicking Reset: the final cell state (mutations made before
an uncaught exception persist) and the escaped exception, if any. -/
structure ResetResult where
  cell : CellState
  thrown : Option String
deriving DecidableEq, Repr

/-- The `resetButton.onclick` handler: restore the editor to the initial
snapshot, then for each of the feedback, output and graphic regions clear
its children iff the region carries the `has-content` mark (the mark
itself is not touched).  The handler reads
`outputFeedbackDiv.classList` unconditionally and first, so when that
reference is `null` a TypeError ends the handler before any clearing. -/
def resetClick (c : CellState) : ResetResult :=
  let c1 := { c with editorValue := c.initialCode }
  match c1.outputFeedback with
  | none =>
      { cell := c1
        thrown := some "TypeError: cannot read classList of null" }
  | some fb =>
      let fb2 := if fb.hasContent then { fb with children := [] } else fb
      let oc := if c1.outputCode.hasContent then
          { c1.outputCode with children := [] } else c1.outputCode
      let og := if c1.outputGraph.hasContent then
          { c1.outputGraph with children := [] } else c1.outputGraph
      let c2 :=
        { c1 with outputFeedback := some fb2, outputCode := oc, outputGraph := og }
      { cell := c2, thrown := none }

/-- The configured feedback backend (`globalThis.backend`), with the base
url and credential read from the settings inputs in the remote case. -/
inductive Backend
  | groq (baseUrl : String) (apiKey : String)
  | flask
  | other
deriving DecidableEq, Repr

/-- The environment of one feedback click: backend configuration, the
interpreter used for the fresh re-run, and the network outcomes.
`modelsResp` is the `GET base/models` outcome (the ids of its `data`
array); `chatResp` the `POST base/chat/completions` outcome; `flaskResp`
the outcome of the fixed local endpoint.  `Except.error` is a network
failure; a successful body is `none` when the `choices` field is missing
and otherwise the list of `message.content` strings of its entries. -/
structure FbEnv where
  backend : Backend
  interp : Interp
  modelsResp : Except String (List String)
  chatResp : Except String (Option (List String))
  flaskResp : Except String (Option (List String))

/-- The hard-coded preferred model id of the remote branch. -/
def preferredModel : String := "mixtral-8x7b-32768"

/-- Model selection in the remote branch: keep the preferred id when it is
among the fetched ids, otherwise take `modelIds[0]` (which is `undefined`,
here `none`, on an empty list). -/
def selectModel (ids : List String) : Option String :=
  if preferredModel ∈ ids then some preferredModel else ids.head?

/-- `replaceNewlinesWithBr`: replace every newline with a break tag. -/
def replaceNewlinesWithBr (s : String) : String :=
  String.intercalate "<br>" (s.splitOn "\n")

/-- The nodes a successful reply renders into the feedback region: the
underlined header followed by the reply text, newlines as breaks. -/
def renderFeedback (content : String) : List Node :=
  [Node.feedbackHeader, Node.feedbackText (replaceNewlinesWithBr content)]

/-- `data.choices[0].message.content` when the response shape carries it;
`none` when `choices` is missing or empty. -/
def firstChoice : Option (List String) → Option String
  | some (c :: _) => some c
  | _ => none

/-- The observable result of one feedback click: the final feedback
region, cell and page state, the network requests made in order, the
model id the remote branch selected, and whether the handler returned
early (held lock, or missing credential). -/
structure FbResult where
  fb : Region
  cell : CellState
  page : PageState
  requests : List String
  selectedModel : Option String
  earlyReturn : Bool
deriving DecidableEq, Repr

/-- The fresh re-run at the top of the feedback handler, i.e. its outer
`try` block after the dead `executeLock` guard: disable the cells, await
readiness, run the shared try block on the current editor text, drain the
buffer, re-enable.  A readiness failure is caught by the outer `catch`,
which substitutes an error string and skips the re-enable, so the lock
stays held there. -/
def feedbackRerun (i : Interp) (c : CellState) (p : PageState) :
    CellState × PageState × String :=
  let c1 := (disableInteractiveCells c p).1
  let p1 := (disableInteractiveCells c p).2
  match i.ready with
  | Except.error e => (c1, p1, "Error: " ++ e)
  | Except.ok _ =>
      let arr := (tryRunBlock i c1.editorValue).1
      let p2 := { p1 with outputArray := arr }
      ((enableInteractiveCells c1 p2).1,
        (enableInteractiveCells c1 p2).2,
        qpyodideRetrieveOutput arr)

/-- The `feedbackButton.onclick` handler over the feedback region `fb` of
its run target (the handler is only installed on cells whose feedback
region is attached).  The response callbacks run after the handler's
synchronous part, which unconditionally adds the `has-content` mark right
after initiating the request; the remote success callback clears the
region before reading `choices[0]`, while the local (flask) callback
checks `choices` before clearing, so a malformed local reply leaves the
region untouched. -/
def feedbackClick (env : FbEnv) (fb : Region) (c : CellState)
    (p : PageState) : FbResult :=
  if c.executeLock then
    { fb := fb, cell := c, page := p, requests := []
      selectedModel := none, earlyReturn := true }
  else
    let c2 := (feedbackRerun env.interp c p).1
    let p2 := (feedbackRerun env.interp c p).2.1
    match env.backend with
    | Backend.groq baseUrl apiKey =>
        if apiKey == "" then
          { fb := fb, cell := c2
            page := { p2 with
              alerts := p2.alerts ++ ["Please enter your API Key."] }
            requests := [], selectedModel := none, earlyReturn := true }
        else
          match env.modelsResp with
          | Except.error e =>
              { fb := { fb with hasContent := true }, cell := c2
                page := { p2 with alerts := p2.alerts ++
                  ["Error when retrieving the model list: " ++ e] }
                requests := [baseUrl ++ "/models"]
                selectedModel := none, earlyReturn := false }
          | Except.ok ids =>
              let sel := selectModel ids
              let reqs := [baseUrl ++ "/models", baseUrl ++ "/chat/completions"]
              match env.chatResp with
              | Except.error e =>
                  { fb := { fb with hasContent := true }, cell := c2
                    page := { p2 with alerts := p2.alerts ++
                      ["Error requesting the API: " ++ e] }
                    requests := reqs, selectedModel := sel
                    earlyReturn := false }
              | Except.ok resp =>
                  match firstChoice resp with
                  | some content =>
                      { fb := { children := renderFeedback content
                                hasContent := true }
                        cell := c2, page := p2, requests := reqs
                        selectedModel := sel, earlyReturn := false }
                  | none =>
                      { fb := { children := [], hasContent := true }
                        cell := c2
                        page := { p2 with alerts := p2.alerts ++
                          ["Error requesting the API: TypeError"] }
                        requests := reqs, selectedModel := sel
                        earlyReturn := false }
    | Backend.flask =>
        let reqs := ["http://127.0.0.1:5000/api/feedback"]
        match env.flaskResp with
        | Except.error e =>
            { fb := { fb with hasContent := true }, cell := c2
              page := { p2 with alerts := p2.alerts ++
                ["Error when requesting the API:  " ++ e] }
              requests := reqs, selectedModel := none, earlyReturn := false }
        | Except.ok resp =>
            match firstChoice resp with
            | some content =>
                { fb := { children := renderFeedback content
                          hasContent := true }
                  cell := c2, page := p2, requests := reqs
                  selectedModel := none, earlyReturn := false }
            | none =>
                { fb := { fb with hasContent := true }, cell := c2
                  page := { p2 with alerts := p2.alerts ++
                    ["Error when retrieving feedback: choices field not available or empty."] }
                  requests := reqs, selectedModel := none
                  earlyReturn := false }
    | Backend.other =>
        { fb := { fb with hasContent := true }, cell := c2, page := p2
          requests := [], selectedModel := none, earlyReturn := false }

/-- Sample options: an editable cell without a figure caption. -/
def sampleOpts : CellOptions := { readOnly := "false", figCap := none }

/-- A page in its initial state. -/
def samplePage : PageState :=
  { runButtonsDisabled := false, outputArray := [], alerts := [] }

/-- A freshly constructed sample cell (feedback flag on). -/
def sampleCell : CellState := setupCell true "print(1+1)" sampleOpts

/-- An interpreter where every step succeeds, emitting the text `2`. -/
def okInterp : Interp :=
  { ready := Except.ok ()
    loadPackages := fun _ => Except.ok ()
    runPy := fun _ => Except.ok "None"
    emitted := fun _ => [{ text := "2", kind := StreamKind.stdout }]
    drawn := fun _ => 0 }

/-- An interpreter whose dependency resolution fails. -/
def depFailInterp : Interp :=
  { okInterp with
    loadPackages := fun _ => Except.error "ModuleNotFoundError: no module" }

/-- An interpreter whose readiness promise rejects. -/
def readyFailInterp : Interp :=
  { okInterp with ready := Except.error "bootstrap failed" }

/-- An empty feedback region. -/
def fbEmpty : Region := { children := [], hasContent := false }

/-- A local-backend environment whose reply is missing `choices`. -/
def flaskMalformedEnv : FbEnv :=
  { backend := Backend.flask
    interp := okInterp
    modelsResp := Except.ok []
    chatResp := Except.ok none
    flaskResp := Except.ok none }

/-- A local-backend environment whose request fails on the network. -/
def flaskNetFailEnv : FbEnv :=
  { flaskMalformedEnv with flaskResp := Except.error "connection refused" }

/-- A remote-backend environment with a stored credential, two fetched
model ids not containing the preferred one, and a well-formed reply. -/
def groqEnv : FbEnv :=
  { backend := Backend.groq "https://api.example.com/openai/v1" "key123"
    interp := okInterp
    modelsResp := Except.ok ["m1", "m2"]
    chatResp := Except.ok (some ["looks good"])
    flaskResp := Except.ok none }

/-- The remote-backend environment with an empty stored credential. -/
def groqNoKeyEnv : FbEnv :=
  { groqEnv with backend := Backend.groq "https://api.example.com/openai/v1" "" }

/-- An interpreter whose run raises, everything else succeeding. -/
def runFailInterp : Interp :=
  { okInterp with
    runPy := fun _ => Except.error "ZeroDivisionError: division by zero"
    emitted := fun _ => [] }

/-- Claim C1 (code bug): the guard at the top of `runCode` reads
`executeLock`, a property no statement in the source ever assigns, not the
`executionLock` flag that `disableInteractiveCells` sets.  At the state an
in-flight run produces — lock flag set, run buttons disabled — a second
trigger is therefore not dropped: `runCode` proceeds into execution
instead of returning immediately. -/
theorem C1_trigger_not_dropped_while_running :
    ((disableInteractiveCells sampleCell samplePage).1.executionLock = true) ∧
    (runCode okInterp "print(1)" (disableInteractiveCells sampleCell samplePage).1
      (disableInteractiveCells sampleCell samplePage).2).earlyReturn = false ∧
    (runCode okInterp "print(1)" (disableInteractiveCells sampleCell samplePage).1
      (disableInteractiveCells sampleCell samplePage).2).ran = true :=
  ⟨rfl, rfl, rfl⟩

/-- Claim C2 counterexample: with a failing dependency resolution the
source text is not executed — `runPythonAsync` is never reached — whereas
the claim states execution proceeds regardless of the dependency outcome. -/
theorem C2_cex_dep_failure_skips_execution :
    depFailInterp.loadPackages "import foo" =
      Except.error "ModuleNotFoundError: no module" ∧
    (runCode depFailInterp "import foo" sampleCell samplePage).ran = false :=
  ⟨rfl, rfl⟩

/-- Claim C2 (amended): a dependency-resolution failure is caught by the
same handler as an execution error: the error is recorded as a stderr
output record, the source text is not executed, and the run still
completes normally — nothing is thrown, the run lock is released and the
run buttons re-enabled. -/
theorem C2_dep_failure_caught (i : Interp) (code : String) (c : CellState)
    (p : PageState) (e : String)
    (hguard : c.executeLock = false)
    (hready : i.ready = Except.ok ())
    (hdep : i.loadPackages code = Except.error e) :
    (runCode i code c p).ran = false ∧
    (runCode i code c p).page.outputArray =
      [{ text := e, kind := StreamKind.stderr }] ∧
    (runCode i code c p).thrown = none ∧
    (runCode i code c p).cell.executionLock = false ∧
    (runCode i code c p).page.runButtonsDisabled = false := by
  simp [runCode, tryRunBlock, hguard, hready, hdep, disableInteractiveCells,
    enableInteractiveCells, qpyodideAddToOutputArray, qpyodideResetOutputArray]

/-- Witness for C2 (amended) at a concrete failing dependency load. -/
theorem C2_dep_failure_caught_witness :
    (runCode depFailInterp "import foo" sampleCell samplePage).ran = false ∧
    (runCode depFailInterp "import foo" sampleCell samplePage).page.outputArray =
      [{ text := "ModuleNotFoundError: no module", kind := StreamKind.stderr }] ∧
    (runCode depFailInterp "import foo" sampleCell samplePage).thrown = none ∧
    (runCode depFailInterp "import foo" sampleCell samplePage).cell.executionLock = false ∧
    (runCode depFailInterp "import foo" sampleCell samplePage).page.runButtonsDisabled = false :=
  C2_dep_failure_caught depFailInterp "import foo" sampleCell samplePage
    "ModuleNotFoundError: no module" rfl rfl rfl

/-- Claim C3 counterexample: a failure of the readiness await — a failure
at an intermediate step of `runCode`, outside its catch — escapes with the
run lock still held and every run button still disabled, whereas the claim
states the release step executes on every exit path. -/
theorem C3_cex_readiness_failure_keeps_lock :
    (runCode readyFailInterp "x" sampleCell samplePage).thrown =
      some "bootstrap failed" ∧
    (runCode readyFailInterp "x" sampleCell samplePage).cell.executionLock = true ∧
    (runCode readyFailInterp "x" sampleCell samplePage).page.runButtonsDisabled = true :=
  ⟨rfl, rfl, rfl⟩

/-- Claim C3 (amended): whenever the readiness await succeeds, every error
raised by dependency loading or by executing the source is captured — an
execution error becomes a stderr output record — nothing escapes
`runCode`, the run lock is released and every run button re-enabled
before it finishes; only a readiness failure exits otherwise. -/
theorem C3_capture_and_release (i : Interp) (code : String) (c : CellState)
    (p : PageState)
    (hguard : c.executeLock = false)
    (hready : i.ready = Except.ok ()) :
    (runCode i code c p).thrown = none ∧
    (runCode i code c p).cell.executionLock = false ∧
    (runCode i code c p).page.runButtonsDisabled = false ∧
    (∀ e, i.loadPackages code = Except.ok () → i.runPy code = Except.error e →
      { text := e, kind := StreamKind.stderr } ∈
        (runCode i code c p).page.outputArray) := by
  refine ⟨?_, ?_, ?_, ?_⟩
  · simp [runCode, hguard, hready, disableInteractiveCells, enableInteractiveCells]
  · simp [runCode, hguard, hready, disableInteractiveCells, enableInteractiveCells]
  · simp [runCode, hguard, hready, disableInteractiveCells, enableInteractiveCells]
  · intro e hdep hrun
    simp [runCode, tryRunBlock, hguard, hready, hdep, hrun,
      disableInteractiveCells, enableInteractiveCells,
      qpyodideAddToOutputArray, qpyodideResetOutputArray]

/-- Witness for C3 (amended) at a concrete raising run. -/
theorem C3_capture_and_release_witness :
    (runCode runFailInterp "x = 1/0" sampleCell samplePage).thrown = none ∧
    (runCode runFailInterp "x = 1/0" sampleCell samplePage).cell.executionLock = false ∧
    (runCode runFailInterp "x = 1/0" sampleCell samplePage).page.runButtonsDisabled = false ∧
    { text := "ZeroDivisionError: division by zero", kind := StreamKind.stderr } ∈
      (runCode runFailInterp "x = 1/0" sampleCell samplePage).page.outputArray := by
  have h := C3_capture_and_release runFailInterp "x = 1/0" sampleCell samplePage rfl rfl
  exact ⟨h.1, h.2.1, h.2.2.1, h.2.2.2 _ rfl rfl⟩

/-- A default-settings cell (feedback flag off, hence no feedback region)
after a user edit and a run that left marked non-whitespace output. -/
def cellNoFeedback : CellState :=
  { setupCell false "a=1" sampleOpts with
    editorValue := "a=2"
    outputCode := { children := [Node.pre (some "out") false]
                    hasContent := true } }

/-- An interpreter whose run leaves one drawable in the figure sink. -/
def drawInterp : Interp :=
  { okInterp with drawn := fun _ => 1, emitted := fun _ => [] }

/-- A cell whose fig-cap option is set. -/
def cellWithCap : CellState :=
  setupCell true "plot()" { readOnly := "false", figCap := some "My caption" }

/-- Claim C6 (code bug): with the shipped default settings the feedback
flag is off, so the feedback-region reference is null; Reset restores the
editor text but then fails with a TypeError on that null reference before
the clearing code runs, leaving the marked, non-empty output region
untouched — the clearing the claim states never happens for such a cell. -/
theorem C6_reset_fails_without_feedback_region :
    (resetClick cellNoFeedback).thrown.isSome = true ∧
    (resetClick cellNoFeedback).cell.editorValue = "a=1" ∧
    (resetClick cellNoFeedback).cell.outputCode =
      { children := [Node.pre (some "out") false], hasContent := true } :=
  ⟨rfl, rfl, rfl⟩

/-- Claim C7: after one run's captured output is drained into its block,
the output region holds exactly the new block, replacing any prior
content: if the block has any non-whitespace character it is displayed
and the region marked non-empty, otherwise a hidden empty element is
installed and the region marked empty. -/
theorem C7_output_block_rendering (i : Interp) (code : String)
    (c : CellState) (p : PageState)
    (hguard : c.executeLock = false)
    (hready : i.ready = Except.ok ()) :
    (hasNonWhitespace
        (qpyodideRetrieveOutput (runCode i code c p).page.outputArray) = true →
      (runCode i code c p).cell.outputCode =
        { children := [Node.pre
            (some (qpyodideRetrieveOutput (runCode i code c p).page.outputArray))
            false]
          hasContent := true }) ∧
    (hasNonWhitespace
        (qpyodideRetrieveOutput (runCode i code c p).page.outputArray) = false →
      (runCode i code c p).cell.outputCode =
        { children := [Node.pre none true], hasContent := false }) := by
  have harr : (runCode i code c p).page.outputArray = (tryRunBlock i code).1 := by
    simp [runCode, hguard, hready, disableInteractiveCells, enableInteractiveCells]
  constructor
  · intro h
    rw [harr] at h
    simp [runCode, hguard, hready, disableInteractiveCells,
      enableInteractiveCells, harr, h]
  · intro h
    rw [harr] at h
    simp [runCode, hguard, hready, disableInteractiveCells,
      enableInteractiveCells, harr, h]

/-- Witness for C7 at a concrete run producing the block `2` + newline +
`None`, which has non-whitespace content. -/
theorem C7_output_block_rendering_witness :
    (runCode okInterp "print(1+1)" sampleCell samplePage).cell.outputCode =
      { children := [Node.pre (some "2\nNone") false], hasContent := true } := by
  have h := C7_output_block_rendering okInterp "print(1+1)" sampleCell
    samplePage rfl rfl
  have hb : qpyodideRetrieveOutput
      (runCode okInterp "print(1+1)" sampleCell samplePage).page.outputArray =
      "2\nNone" := rfl
  have h1 := h.1 (by rw [hb]; decide)
  rw [hb] at h1
  exact h1

/-- Claim C8: when dependency loading succeeds, a run leaving N ≥ 1
drawable elements in the fresh figure sink renders exactly one graphic
container, replacing any prior content and marked non-empty, and its
caption is attached iff the fig-cap option is set (JavaScript-truthy);
a run leaving no drawable leaves the graphic region cleared and marked
empty. -/
theorem C8_graphic_rendering (i : Interp) (code : String) (c : CellState)
    (p : PageState)
    (hguard : c.executeLock = false)
    (hready : i.ready = Except.ok ())
    (hdep : i.loadPackages code = Except.ok ()) :
    (0 < i.drawn code →
      (runCode i code c p).cell.outputGraph =
        { children := [Node.figure (i.drawn code)
            (if jsTruthy c.options.figCap then c.options.figCap else none)]
          hasContent := true } ∧
      (if jsTruthy c.options.figCap then c.options.figCap else none).isSome
        = jsTruthy c.options.figCap) ∧
    (i.drawn code = 0 →
      (runCode i code c p).cell.outputGraph =
        { children := [], hasContent := false }) := by
  have hdrawn : (tryRunBlock i code).2.1 = i.drawn code := by
    cases hrp : i.runPy code <;> simp [tryRunBlock, hdep, hrp]
  constructor
  · intro h
    constructor
    · simp [runCode, hguard, hready, disableInteractiveCells,
        enableInteractiveCells, hdrawn, h]
    · rcases hfc : c.options.figCap with _ | s
      · simp [jsTruthy]
      · by_cases hs : s = "" <;> simp [jsTruthy, hs]
  · intro h
    simp [runCode, hguard, hready, disableInteractiveCells,
      enableInteractiveCells, hdrawn, h]

/-- Witness for C8 at a concrete run drawing one element into the sink of
a cell whose fig-cap option is set. -/
theorem C8_graphic_rendering_witness :
    (runCode drawInterp "plot()" cellWithCap samplePage).cell.outputGraph =
      { children := [Node.figure 1 (some "My caption")], hasContent := true } := by
  have h := (C8_graphic_rendering drawInterp "plot()" cellWithCap samplePage
    rfl rfl rfl).1 (by decide)
  exact h.1.trans (by decide)

/-- Claim C10: when the global feedback flag is not true the constructor
yields a null feedback-region reference, and Reset on any cell whose
feedback-region reference is null restores the source text and then
throws a TypeError before reaching the clearing code, so the output and
graphic regions are left exactly as they were. -/
theorem C10_reset_null_feedback (code : String) (opts : CellOptions)
    (c : CellState) (hfb : c.outputFeedback = none) :
    (setupCell false code opts).outputFeedback = none ∧
    (resetClick c).cell.editorValue = c.initialCode ∧
    (resetClick c).thrown.isSome = true ∧
    (resetClick c).cell.outputCode = c.outputCode ∧
    (resetClick c).cell.outputGraph = c.outputGraph := by
  refine ⟨by simp [setupCell], ?_, ?_, ?_, ?_⟩ <;> simp [resetClick, hfb]

/-- Witness for C10 at the concrete default-settings cell. -/
theorem C10_reset_null_feedback_witness :
    (setupCell false "x" sampleOpts).outputFeedback = none ∧
    (resetClick cellNoFeedback).cell.editorValue = cellNoFeedback.initialCode ∧
    (resetClick cellNoFeedback).thrown.isSome = true ∧
    (resetClick cellNoFeedback).cell.outputCode = cellNoFeedback.outputCode ∧
    (resetClick cellNoFeedback).cell.outputGraph = cellNoFeedback.outputGraph :=
  C10_reset_null_feedback "x" sampleOpts cellNoFeedback rfl

/-- A feedback region holding prior content. -/
def fbStale : Region :=
  { children := [Node.feedbackText "old"], hasContent := true }

/-- The remote-backend environment whose reply is missing `choices`. -/
def groqMalformedEnv : FbEnv := { groqEnv with chatResp := Except.ok none }

/-- Claim C4 counterexample: under the local (flask) backend the feedback
region is not cleared before the request, and on a reply missing
`choices` the handler alerts but leaves the prior content in place — the
region does not end cleared. -/
theorem C4_cex_flask_keeps_stale_content :
    (feedbackClick flaskMalformedEnv fbStale sampleCell samplePage).fb.children =
      [Node.feedbackText "old"] ∧
    (feedbackClick flaskMalformedEnv fbStale sampleCell samplePage).page.alerts =
      ["Error when retrieving feedback: choices field not available or empty."] :=
  ⟨rfl, rfl⟩

/-- Claim C4 (amended): a reply missing `choices`/`choices[0]` never
produces partial render output and always raises a user-visible alert;
under the remote (groq) backend the region ends cleared, because its
callback clears before reading the reply, while under the local (flask)
backend the region is cleared neither before nor after the request — its
prior children remain. -/
theorem C4_malformed_response_render (env : FbEnv) (fb : Region)
    (c : CellState) (p : PageState)
    (hguard : c.executeLock = false) :
    (∀ baseUrl apiKey ids r, env.backend = Backend.groq baseUrl apiKey →
      apiKey ≠ "" → env.modelsResp = Except.ok ids →
      env.chatResp = Except.ok r → firstChoice r = none →
      (feedbackClick env fb c p).fb.children = [] ∧
      (feedbackClick env fb c p).page.alerts =
        (feedbackRerun env.interp c p).2.1.alerts ++
          ["Error requesting the API: TypeError"]) ∧
    (∀ r, env.backend = Backend.flask → env.flaskResp = Except.ok r →
      firstChoice r = none →
      (feedbackClick env fb c p).fb.children = fb.children ∧
      (feedbackClick env fb c p).page.alerts =
        (feedbackRerun env.interp c p).2.1.alerts ++
          ["Error when retrieving feedback: choices field not available or empty."]) := by
  constructor
  · intro baseUrl apiKey ids r hb hkey hm hc hf
    have hk : (apiKey == "") = false := by simp [hkey]
    constructor <;> simp [feedbackClick, hguard, hb, hk, hm, hc, hf]
  · intro r hb hfr hf
    constructor <;> simp [feedbackClick, hguard, hb, hfr, hf]

/-- Witness for C4 (amended) at concrete malformed replies under both
backends. -/
theorem C4_malformed_response_render_witness :
    ((feedbackClick groqMalformedEnv fbStale sampleCell samplePage).fb.children = [] ∧
     (feedbackClick groqMalformedEnv fbStale sampleCell samplePage).page.alerts =
       (feedbackRerun groqMalformedEnv.interp sampleCell samplePage).2.1.alerts ++
         ["Error requesting the API: TypeError"]) ∧
    ((feedbackClick flaskMalformedEnv fbStale sampleCell samplePage).fb.children =
       fbStale.children ∧
     (feedbackClick flaskMalformedEnv fbStale sampleCell samplePage).page.alerts =
       (feedbackRerun flaskMalformedEnv.interp sampleCell samplePage).2.1.alerts ++
         ["Error when retrieving feedback: choices field not available or empty."]) := by
  constructor
  · exact (C4_malformed_response_render groqMalformedEnv fbStale sampleCell
      samplePage rfl).1 _ _ ["m1", "m2"] none rfl (by decide) rfl rfl rfl
  · exact (C4_malformed_response_render flaskMalformedEnv fbStale sampleCell
      samplePage rfl).2 none rfl rfl rfl

/-- Claim C5 counterexample: on a network failure of the local backend the
handler still adds the has-content mark — it is added unconditionally in
the synchronous part, before the reply arrives — so a previously empty
feedback region is newly marked non-empty without any successful render. -/
theorem C5_cex_mark_set_on_network_failure :
    flaskNetFailEnv.flaskResp = Except.error "connection refused" ∧
    fbEmpty.hasContent = false ∧
    (feedbackClick flaskNetFailEnv fbEmpty sampleCell samplePage).fb.hasContent = true :=
  ⟨rfl, rfl, rfl⟩

/-- Claim C5 (amended): the has-content mark is added unconditionally by
the synchronous tail of the handler, regardless of the request outcome,
on every path except the early returns; with the (dead) lock guard not
taken, only the remote branch with an empty credential leaves the region
untouched. -/
theorem C5_mark_unconditional (env : FbEnv) (fb : Region) (c : CellState)
    (p : PageState) (hguard : c.executeLock = false) :
    ((∀ baseUrl, env.backend ≠ Backend.groq baseUrl "") →
      (feedbackClick env fb c p).fb.hasContent = true) ∧
    (∀ baseUrl, env.backend = Backend.groq baseUrl "" →
      (feedbackClick env fb c p).fb = fb) := by
  constructor
  · intro hne
    rcases hb : env.backend with ⟨baseUrl, apiKey⟩ | _ | _
    · by_cases hkey : apiKey = ""
      · exact absurd (by rw [hb, hkey]) (hne baseUrl)
      · have hk : (apiKey == "") = false := by simp [hkey]
        rcases hm : env.modelsResp with e | ids
        · simp [feedbackClick, hguard, hb, hk, hm]
        · rcases hc : env.chatResp with e | r
          · simp [feedbackClick, hguard, hb, hk, hm, hc]
          · rcases hf : firstChoice r with _ | content
            · simp [feedbackClick, hguard, hb, hk, hm, hc, hf]
            · simp [feedbackClick, hguard, hb, hk, hm, hc, hf]
    · rcases hfr : env.flaskResp with e | r
      · simp [feedbackClick, hguard, hb, hfr]
      · rcases hf : firstChoice r with _ | content
        · simp [feedbackClick, hguard, hb, hfr, hf]
        · simp [feedbackClick, hguard, hb, hfr, hf]
    · simp [feedbackClick, hguard, hb]
  · intro baseUrl hb
    simp [feedbackClick, hguard, hb]

/-- Witness for C5 (amended) at a concrete network failure and at the
concrete empty-credential early return. -/
theorem C5_mark_unconditional_witness :
    (feedbackClick flaskNetFailEnv fbEmpty sampleCell samplePage).fb.hasContent = true ∧
    (feedbackClick groqNoKeyEnv fbEmpty sampleCell samplePage).fb = fbEmpty := by
  constructor
  · exact (C5_mark_unconditional flaskNetFailEnv fbEmpty sampleCell samplePage
      rfl).1 (fun _ h => Backend.noConfusion h)
  · exact (C5_mark_unconditional groqNoKeyEnv fbEmpty sampleCell samplePage
      rfl).2 "https://api.example.com/openai/v1" rfl

/-- Claim C9: under the remote (groq) backend an empty stored credential
aborts with the user-visible prompt and no network request; with a
credential, when the model listing arrives the preferred id is selected
if present among the fetched ids and the first fetched id otherwise. -/
theorem C9_credential_and_model_choice (env : FbEnv) (fb : Region)
    (c : CellState) (p : PageState) (baseUrl apiKey : String)
    (hguard : c.executeLock = false)
    (hb : env.backend = Backend.groq baseUrl apiKey) :
    (apiKey = "" →
      (feedbackClick env fb c p).requests = [] ∧
      "Please enter your API Key." ∈ (feedbackClick env fb c p).page.alerts ∧
      (feedbackClick env fb c p).earlyReturn = true) ∧
    (∀ ids, apiKey ≠ "" → env.modelsResp = Except.ok ids →
      ((preferredModel ∈ ids →
         (feedbackClick env fb c p).selectedModel = some preferredModel) ∧
       (preferredModel ∉ ids →
         (feedbackClick env fb c p).selectedModel = ids.head?))) := by
  constructor
  · intro hkey
    subst hkey
    refine ⟨?_, ?_, ?_⟩ <;> simp [feedbackClick, hguard, hb]
  · intro ids hkey hm
    have hk : (apiKey == "") = false := by simp [hkey]
    have hsel : (feedbackClick env fb c p).selectedModel = selectModel ids := by
      rcases hc : env.chatResp with e | r
      · simp [feedbackClick, hguard, hb, hk, hm, hc]
      · rcases hf : firstChoice r with _ | content
        · simp [feedbackClick, hguard, hb, hk, hm, hc, hf]
        · simp [feedbackClick, hguard, hb, hk, hm, hc, hf]
    constructor
    · intro hmem
      rw [hsel]
      simp [selectModel, hmem]
    · intro hmem
      rw [hsel]
      simp [selectModel, hmem]

/-- Witness for C9 at the concrete empty-credential environment and at a
concrete id list not containing the preferred id. -/
theorem C9_credential_and_model_choice_witness :
    ((feedbackClick groqNoKeyEnv fbEmpty sampleCell samplePage).requests = [] ∧
     "Please enter your API Key." ∈
       (feedbackClick groqNoKeyEnv fbEmpty sampleCell samplePage).page.alerts ∧
     (feedbackClick groqNoKeyEnv fbEmpty sampleCell samplePage).earlyReturn = true) ∧
    (feedbackClick groqEnv fbEmpty sampleCell samplePage).selectedModel = some "m1" := by
  constructor
  · exact (C9_credential_and_model_choice groqNoKeyEnv fbEmpty sampleCell
      samplePage "https://api.example.com/openai/v1" "" rfl rfl).1 rfl
  · have h := ((C9_credential_and_model_choice groqEnv fbEmpty sampleCell
      samplePage "https://api.example.com/openai/v1" "key123" rfl rfl).2
      ["m1", "m2"] (by decide) rfl).2 (by decide)
    exact h.trans rfl

end QPyodide
